import Mathlib

/-!
Shallow embedding of the OCPP message router and handler plane of the
maeve-csms-reservations manager.

Embedded source files:
* `manager/mqtt/router.go` — `Router.Route` (the dispatch engine for
  Call / CallResult / CallError envelopes);
* the OCPP 1.6 `AuthorizeHandler.HandleCall`;
* `manager/handlers/ocpp16/reservation.go` — `ReservationResultHandler.HandleCallResult`;
* `manager/ocpp/ocpp16/reservation.go`, `reservation_response.go` — the
  reservation request/response data types.

External collaborators (the JSON-schema validator `schemas.Validate`, the
JSON codec `json.Marshal`/`json.Unmarshal`, the MQTT emitter, the token
store) are modelled as pure oracle functions supplied as parameters, so
each theorem quantifies over every behaviour they can exhibit.

Go errors are modelled by the inductive `GoError`, whose constructors mirror
the ways the embedded code builds errors: `fmt.Errorf` with `%w` wraps
(`wrapf`), `fmt.Errorf` with `%v` flattens (`wrapv`, opaque to `errors.As`),
`errors.New` / non-wrapping `fmt.Errorf` (`errorString`), the mqtt package's
`NewError(code, err)` (`mqttError`), and a `*jsonschema.ValidationError`
boxed into the `error` interface (`validationErrorPtr`, whose Boolean records
whether the pointer itself is nil — a typed nil pointer in a Go interface is
a non-nil interface value, which is what the router's `errors.As` call
actually inspects).
-/

namespace Maeve

/-- Raw payload bytes (`[]byte` in Go). The router treats payloads opaquely:
it only hands them to the validator and codec oracles. -/
abbrev Payload := List Nat

/-- The closed set of OCPP error codes (spec §6). -/
inductive ErrorCode
  | notImplemented
  | notSupported
  | internalError
  | protocolError
  | securityError
  | formatViolation
  | propertyConstraintViolation
  | occurrenceConstraintViolation
  | typeConstraintViolation
  | genericError
  deriving DecidableEq

/-- A Go `error` value as built by the embedded code.

`validationErrorPtr isNilPtr msg` is a `*jsonschema.ValidationError` boxed in
the `error` interface; `isNilPtr = true` is the typed nil pointer (still a
non-nil interface value). `mqttError code inner` is `mqtt.NewError(code, inner)`.
`wrapf msg inner` is `fmt.Errorf("msg: %w", inner)`; `wrapv msg inner` is
`fmt.Errorf("msg: %v", inner)`, which only formats `inner` into the string and
exposes no `Unwrap` chain. `errorString msg` is `errors.New` / a
non-wrapping `fmt.Errorf`. -/
inductive GoError
  | validationErrorPtr (isNilPtr : Bool) (msg : String)
  | errorString (msg : String)
  | mqttError (code : ErrorCode) (wrapped : GoError)
  | wrapf (msg : String) (inner : GoError)
  | wrapv (msg : String) (inner : GoError)
  deriving DecidableEq

/-- Go's `errors.As(err, &target)` where `target` has type
`*jsonschema.ValidationError`: walk the `Unwrap` chain (only `%w` wraps
expose one) and report whether some element's concrete type is
`*jsonschema.ValidationError`. A typed nil `*jsonschema.ValidationError`
matches: `reflect.TypeOf` sees the concrete pointer type, not the value. -/
def errorsAsValidationError : GoError → Bool
  | .validationErrorPtr _ _ => true
  | .wrapf _ inner => errorsAsValidationError inner
  | _ => false

/-- The `error`-interface value of the router's local
`var validationErr *jsonschema.ValidationError`: a typed nil pointer boxed
into the interface, hence a non-nil interface value. -/
def nilValidationErrIface : GoError := .validationErrorPtr true ""

/-- Does the error chain contain an mqtt error carrying `code`? This is the
spec-side reading of "an error classified as / wrapping the code C":
traverse `%w` wraps and `mqtt.NewError` wrappers; `%v` flattening hides its
operand. -/
def GoError.hasCode : GoError → ErrorCode → Bool
  | .mqttError c inner, code => c == code || GoError.hasCode inner code
  | .wrapf _ inner, code => GoError.hasCode inner code
  | _, _ => false

/-- The OCPP-over-bus message type. Go models it as named constants of a
scalar type; `unknown n` stands for any value other than the three named
constants (the router's `switch` has no default case for it). -/
inductive MessageType
  | call
  | callResult
  | callError
  | unknown (tag : Nat)
  deriving DecidableEq

/-- The bus envelope (`mqtt.Message`), generic over the opaque correlation
`State` blob (`any` in Go, nilable, hence `Option St`). -/
structure Message (St : Type) where
  messageType : MessageType
  action : String
  messageId : String
  requestPayload : Payload
  responsePayload : Payload
  state : Option St
  deriving DecidableEq

/-- A Call route (`handlers.CallRoute`). `decodeRequest` embeds
`json.Unmarshal` into the fresh value produced by the route's `NewRequest`
factory; `marshalResponse` embeds `json.Marshal`. `handleCall` returns Go's
`(ocpp.Response, error)` pair — both components nilable. -/
structure CallRoute (Req Resp : Type) where
  requestSchema : String
  responseSchema : String
  decodeRequest : Payload → Except GoError Req
  handleCall : String → Req → Option Resp × Option GoError
  marshalResponse : Resp → Except GoError Payload

/-- A CallResult route (`handlers.CallResultRoute`): additionally a response
decoder and a result handler taking the envelope's `State` blob. -/
structure CallResultRoute (Req Resp St : Type) where
  requestSchema : String
  responseSchema : String
  decodeRequest : Payload → Except GoError Req
  decodeResponse : Payload → Except GoError Resp
  handleCallResult : String → Req → Resp → Option St → Option GoError

/-- The router: immutable per-version route tables, modelled as association
lists (Go maps keyed by `Action`). -/
structure Router (Req Resp St : Type) where
  callRoutes : List (String × CallRoute Req Resp)
  callResultRoutes : List (String × CallResultRoute Req Resp St)

/-- The router's external effect oracles: `validate payload schemaName`
is `schemas.Validate(payload, schemaFS, schemaName)` (`none` = nil error),
`emit csId msg` is `emitter.Emit(ctx, csId, msg)`. -/
structure RouterEnv (St : Type) where
  validate : Payload → String → Option GoError
  emit : String → Message St → Option GoError

/-- The observable outcome of one `Router.Route` invocation: the envelopes
passed to the emitter in order, the errors written to the warning log, and
the returned error (`none` = nil). -/
structure RouteResult (St : Type) where
  emitted : List (Message St)
  logged : List GoError
  result : Option GoError

/-- `Router.Route` from `manager/mqtt/router.go`, translated clause by
clause.

Call branch: route lookup (miss wraps `NotImplemented`); request validation
— on failure the source runs `errors.As(validationErr, &validationErr)`
against the freshly declared typed-nil pointer, which always succeeds, so
every validation-step error is wrapped in `FormatViolation`; request decode
(failure wrapped with `%w`, no OCPP code attached); handler call (error
returned as-is; nil response with nil error yields a plain formatted error);
response marshal; response validation, whose failure is only logged as
`PropertyConstraintViolation`; emission of the CallResult envelope.

CallResult branch: lookup, validate both payloads (the response-side
failure goes through the same always-true `errors.As` check), decode both
(response decode failure uses `%v`, not `%w`), then the result handler
receives the envelope's `State`.

CallError branch: returns `errors.New("we shouldn't get here at the moment")`.
Any other message type falls through the switch and returns nil. -/
def Router.Route {Req Resp St : Type} (r : Router Req Resp St) (env : RouterEnv St)
    (chargeStationId : String) (message : Message St) : RouteResult St :=
  match message.messageType with
  | .call =>
    match r.callRoutes.lookup message.action with
    | none =>
      ⟨[], [], some (.wrapf "routing request"
        (.mqttError .notImplemented (.errorString (message.action ++ " not implemented"))))⟩
    | some route =>
      match env.validate message.requestPayload route.requestSchema with
      | some err =>
        let err := if errorsAsValidationError nilValidationErrIface then
            GoError.mqttError .formatViolation err
          else err
        ⟨[], [], some (.wrapf ("validating " ++ message.action ++ " request") err)⟩
      | none =>
        match route.decodeRequest message.requestPayload with
        | .error err =>
          ⟨[], [], some (.wrapf ("unmarshalling " ++ message.action ++ " request payload") err)⟩
        | .ok req =>
          match route.handleCall chargeStationId req with
          | (_, some err) => ⟨[], [], some err⟩
          | (none, none) =>
            ⟨[], [], some (.errorString ("no response or error for " ++ message.action))⟩
          | (some resp, none) =>
            match route.marshalResponse resp with
            | .error err =>
              ⟨[], [], some (.wrapf ("marshalling " ++ message.action ++ " call response") err)⟩
            | .ok responseJson =>
              let logged := match env.validate responseJson route.responseSchema with
                | some err => [GoError.mqttError .propertyConstraintViolation err]
                | none => []
              let out : Message St :=
                { messageType := .callResult
                  action := message.action
                  messageId := message.messageId
                  requestPayload := []
                  responsePayload := responseJson
                  state := none }
              match env.emit chargeStationId out with
              | some err => ⟨[out], logged, some (.wrapf "sending call response" err)⟩
              | none => ⟨[out], logged, none⟩
  | .callResult =>
    match r.callResultRoutes.lookup message.action with
    | none =>
      ⟨[], [], some (.wrapf "routing request"
        (.mqttError .notImplemented (.errorString (message.action ++ " result not implemented"))))⟩
    | some route =>
      match env.validate message.requestPayload route.requestSchema with
      | some err =>
        ⟨[], [], some (.wrapf ("validating " ++ message.action ++ " request") err)⟩
      | none =>
        match env.validate message.responsePayload route.responseSchema with
        | some err =>
          let err := if errorsAsValidationError nilValidationErrIface then
              GoError.mqttError .formatViolation err
            else err
          ⟨[], [], some (.wrapf ("validating " ++ message.action ++ " response") err)⟩
        | none =>
          match route.decodeRequest message.requestPayload with
          | .error err =>
            ⟨[], [], some (.wrapf ("unmarshalling " ++ message.action ++ " request payload") err)⟩
          | .ok req =>
            match route.decodeResponse message.responsePayload with
            | .error err =>
              ⟨[], [], some (.wrapv ("unmarshalling " ++ message.action ++ " response payload") err)⟩
            | .ok resp =>
              ⟨[], [], route.handleCallResult chargeStationId req resp message.state⟩
  | .callError =>
    ⟨[], [], some (.errorString "we shouldn't get here at the moment")⟩
  | .unknown _ => ⟨[], [], none⟩

/-! ## OCPP 1.6 Authorize handler -/

/-- `ocpp16.AuthorizeJson`: the typed OCPP 1.6 Authorize request as used by
the handler (only `IdTag` is read). -/
structure AuthorizeJson where
  idTag : String
  deriving DecidableEq

/-- The OCPP 1.6 `idTagInfo.status` enumeration
(`ocpp16.AuthorizeResponseJsonIdTagInfoStatus`). -/
inductive AuthorizeStatus
  | accepted
  | blocked
  | expired
  | invalid
  | concurrentTx
  deriving DecidableEq

/-- `ocpp16.AuthorizeResponseJsonIdTagInfo`. -/
structure AuthorizeIdTagInfo where
  status : AuthorizeStatus
  deriving DecidableEq

/-- `ocpp16.AuthorizeResponseJson`. -/
structure AuthorizeResponseJson where
  idTagInfo : AuthorizeIdTagInfo
  deriving DecidableEq

/-- `AuthorizeHandler.HandleCall` (OCPP 1.6). The handler's
`services.TokenStore` dependency is the oracle `findToken`, returning Go's
`(*store.Token, error)` pair. The source initialises the status to
`Invalid`, looks up `FindToken("ISO14443", req.IdTag)`, propagates a lookup
error with a nil response, upgrades the status to `Accepted` when the
returned token is non-nil, and returns the response with a nil error. -/
def AuthorizeHandler.HandleCall {Token : Type}
    (findToken : String → String → Option Token × Option GoError)
    (chargeStationId : String) (req : AuthorizeJson) :
    Option AuthorizeResponseJson × Option GoError :=
  let _ := chargeStationId
  let status := AuthorizeStatus.invalid
  match findToken "ISO14443" req.idTag with
  | (_, some err) => (none, some err)
  | (tok, none) =>
    let status := if tok.isSome then AuthorizeStatus.accepted else status
    (some ⟨⟨status⟩⟩, none)

/-! ## OCPP 1.6 reservation types and result handler -/

/-- `ocpp16.Reservation` (`manager/ocpp/ocpp16/reservation.go`). -/
structure Reservation where
  reservationId : Int
  connectorId : Int
  expiryDate : String
  idTag : String
  deriving DecidableEq

/-- `ocpp16.ReservationStatus` with its five declared constants
(`manager/ocpp/ocpp16/reservation_response.go`). -/
inductive ReservationStatus
  | accepted
  | faulted
  | occupied
  | rejected
  | unavailable
  deriving DecidableEq

/-- `ocpp16.ReservationResponse`. -/
structure ReservationResponse where
  status : ReservationStatus
  deriving DecidableEq

/-- A dynamically typed `ocpp.Request` interface value, as handed to a
result handler: either a `*ocpp16.Reservation` or a value of some other
concrete request type. -/
inductive OcppRequest
  | reservation (r : Reservation)
  | otherRequest (typeName : String)
  deriving DecidableEq

/-- A dynamically typed `ocpp.Response` interface value. -/
inductive OcppResponse
  | reservationResponse (r : ReservationResponse)
  | otherResponse (typeName : String)
  deriving DecidableEq

/-- The outcome of running a Go function that may panic (an unchecked type
assertion panics on mismatch). -/
inductive GoOutcome (α : Type)
  | ok (val : α)
  | panicked (msg : String)
  deriving DecidableEq

/-- `ReservationResultHandler.HandleCallResult`
(`manager/handlers/ocpp16/reservation.go`). The source asserts
`request.(*ocpp16.Reservation)` then `response.(*ocpp16.ReservationResponse)`
(panicking on a mismatch), logs both values, and returns nil. It touches no
store and ignores `state`. -/
def ReservationResultHandler.HandleCallResult {St : Type}
    (chargeStationId : String) (request : OcppRequest) (response : OcppResponse)
    (state : Option St) : GoOutcome (Option GoError) :=
  let _ := chargeStationId
  let _ := state
  match request with
  | .reservation _ =>
    match response with
    | .reservationResponse _ => .ok none
    | .otherResponse t =>
      .panicked ("interface conversion: ocpp.Response is " ++ t ++ ", not *ocpp16.ReservationResponse")
  | .otherRequest t =>
    .panicked ("interface conversion: ocpp.Request is " ++ t ++ ", not *ocpp16.Reservation")

/-! ## Concrete fixtures

Closed instantiations used to evaluate the router on concrete envelopes:
request, response and state types are all `Nat`; the oracles are total
constant functions. -/

/-- A concrete Call route whose decode, handler and marshal steps all
succeed; the marshalled response is the two bytes of `"{}"`. -/
def sampleCallRoute : CallRoute Nat Nat where
  requestSchema := "ocpp16/Heartbeat.json"
  responseSchema := "ocpp16/HeartbeatResponse.json"
  decodeRequest := fun _ => .ok 0
  handleCall := fun _ _ => (some 7, none)
  marshalResponse := fun _ => .ok [123, 125]

/-- A concrete CallResult route whose decodes succeed and whose result
handler returns nil. -/
def sampleResultRoute : CallResultRoute Nat Nat Nat where
  requestSchema := "ocpp201/CertificateSignedRequest.json"
  responseSchema := "ocpp201/CertificateSignedResponse.json"
  decodeRequest := fun _ => .ok 1
  decodeResponse := fun _ => .ok 2
  handleCallResult := fun _ _ _ _ => none

/-- A concrete router with one Call route and one CallResult route. -/
def sampleRouter : Router Nat Nat Nat where
  callRoutes := [("Heartbeat", sampleCallRoute)]
  callResultRoutes := [("CertificateSigned", sampleResultRoute)]

/-- An environment in which every validation passes and every emission
succeeds. -/
def okEnv : RouterEnv Nat where
  validate := fun _ _ => none
  emit := fun _ _ => none

/-! ## Claims -/

/-- Claim C3: for a Call envelope whose Action has no entry in `CallRoutes`,
`Route` emits nothing and returns an error wrapping the `NotImplemented`
code; likewise for a CallResult envelope whose Action has no entry in
`CallResultRoutes`. -/
theorem route_unknown_action_not_implemented {Req Resp St : Type}
    (r : Router Req Resp St) (env : RouterEnv St) (cs action mid : String)
    (reqP respP : Payload) (st : Option St)
    (hcall : r.callRoutes.lookup action = none)
    (hresult : r.callResultRoutes.lookup action = none) :
    r.Route env cs ⟨.call, action, mid, reqP, respP, st⟩ =
      ⟨[], [], some (.wrapf "routing request"
        (.mqttError .notImplemented (.errorString (action ++ " not implemented"))))⟩ ∧
    r.Route env cs ⟨.callResult, action, mid, reqP, respP, st⟩ =
      ⟨[], [], some (.wrapf "routing request"
        (.mqttError .notImplemented (.errorString (action ++ " result not implemented"))))⟩ ∧
    GoError.hasCode (.wrapf "routing request"
        (.mqttError .notImplemented (.errorString (action ++ " not implemented"))))
      .notImplemented = true ∧
    GoError.hasCode (.wrapf "routing request"
        (.mqttError .notImplemented (.errorString (action ++ " result not implemented"))))
      .notImplemented = true := by
  refine ⟨?_, ?_, rfl, rfl⟩ <;> simp [Router.Route, hcall, hresult]

/-- Claim C3 witness: the router of the fixtures at action `"Frobnicate"`. -/
theorem route_unknown_action_not_implemented_witness :
    (sampleRouter.callRoutes.lookup "Frobnicate" = none) ∧
    sampleRouter.Route okEnv "cs001" ⟨.call, "Frobnicate", "m1", [], [], none⟩ =
      ⟨[], [], some (.wrapf "routing request"
        (.mqttError .notImplemented (.errorString ("Frobnicate" ++ " not implemented"))))⟩ :=
  ⟨rfl, (route_unknown_action_not_implemented sampleRouter okEnv "cs001" "Frobnicate" "m1"
    [] [] none rfl rfl).1⟩

/-- Claim C9: an envelope whose MessageType is none of Call, CallResult,
CallError falls through the switch: `Route` returns nil and emits nothing;
a CallError envelope emits nothing and returns a non-nil error. -/
theorem route_other_message_types {Req Resp St : Type}
    (r : Router Req Resp St) (env : RouterEnv St) (cs action mid : String)
    (reqP respP : Payload) (st : Option St) :
    (∀ tag : Nat,
      r.Route env cs ⟨.unknown tag, action, mid, reqP, respP, st⟩ = ⟨[], [], none⟩) ∧
    r.Route env cs ⟨.callError, action, mid, reqP, respP, st⟩ =
      ⟨[], [], some (.errorString "we shouldn't get here at the moment")⟩ := by
  exact ⟨fun _ => rfl, rfl⟩

/-- Claim C10: when the request is a `*ocpp16.Reservation` and the response
a `*ocpp16.ReservationResponse`, the reservation result handler's type
assertions succeed and it returns nil for every context, charge station id
and state, with no effect beyond logging. -/
theorem reservation_result_handler_returns_nil {St : Type} (cs : String)
    (resv : Reservation) (resp : ReservationResponse) (st : Option St) :
    ReservationResultHandler.HandleCallResult cs
      (.reservation resv) (.reservationResponse resp) st = .ok none := rfl

/-- Claim C4: the v1.6 Authorize handler consults
`FindToken("ISO14443", idTag)`; with a nil lookup error it answers with
status Accepted exactly when the token is non-nil and Invalid otherwise,
and a lookup error is propagated with no response. -/
theorem authorize_accepted_iff_token_found {Token : Type}
    (findToken : String → String → Option Token × Option GoError)
    (cs : String) (req : AuthorizeJson) (tok : Option Token) (e : Option GoError)
    (h : findToken "ISO14443" req.idTag = (tok, e)) :
    (e = none →
      AuthorizeHandler.HandleCall findToken cs req =
        (some ⟨⟨if tok.isSome then .accepted else .invalid⟩⟩, none) ∧
      ((AuthorizeHandler.HandleCall findToken cs req).1 =
          some ⟨⟨AuthorizeStatus.accepted⟩⟩ ↔ tok ≠ none)) ∧
    (∀ err, e = some err →
      AuthorizeHandler.HandleCall findToken cs req = (none, some err)) := by
  constructor
  · intro he
    subst he
    constructor
    · simp [AuthorizeHandler.HandleCall, h]
    · cases tok <;> simp [AuthorizeHandler.HandleCall, h]
  · intro err he
    subst he
    simp [AuthorizeHandler.HandleCall, h]

/-- Claim C4 witness: a store holding the token, queried at
`idTag = "ABC123"`, yields status Accepted. -/
theorem authorize_accepted_iff_token_found_witness :
    ((fun (_ : String) (_ : String) => ((some 0, none) : Option Nat × Option GoError))
        "ISO14443" "ABC123" = ((some 0 : Option Nat), (none : Option GoError))) ∧
    AuthorizeHandler.HandleCall
        (fun _ _ => ((some 0, none) : Option Nat × Option GoError)) "cs001" ⟨"ABC123"⟩ =
      (some ⟨⟨.accepted⟩⟩, none) :=
  ⟨rfl, by
    have h := (authorize_accepted_iff_token_found
      (fun _ _ => ((some 0, none) : Option Nat × Option GoError)) "cs001" ⟨"ABC123"⟩
      (some 0) none rfl).1 rfl
    exact h.1⟩

/-- A route whose call handler returns a nil response with a nil error. -/
def nilRespRoute : CallRoute Nat Nat where
  requestSchema := "ocpp16/Heartbeat.json"
  responseSchema := "ocpp16/HeartbeatResponse.json"
  decodeRequest := fun _ => .ok 0
  handleCall := fun _ _ => (none, none)
  marshalResponse := fun _ => .ok []

/-- A router holding only `nilRespRoute`. -/
def nilRespRouter : Router Nat Nat Nat where
  callRoutes := [("Heartbeat", nilRespRoute)]
  callResultRoutes := []

/-- A route whose request decode (`json.Unmarshal`) fails. -/
def badDecodeRoute : CallRoute Nat Nat where
  requestSchema := "ocpp16/Heartbeat.json"
  responseSchema := "ocpp16/HeartbeatResponse.json"
  decodeRequest := fun _ => .error (.errorString "invalid character")
  handleCall := fun _ _ => (some 7, none)
  marshalResponse := fun _ => .ok []

/-- A router holding only `badDecodeRoute`. -/
def badDecodeRouter : Router Nat Nat Nat where
  callRoutes := [("Heartbeat", badDecodeRoute)]
  callResultRoutes := []

/-- An environment whose validator fails with an error that is not a
JSON-schema validation error (e.g. the schema file cannot be read). -/
def failValidateEnv : RouterEnv Nat where
  validate := fun _ _ => some (.errorString "reading schema file: file does not exist")
  emit := fun _ _ => none

/-- Claim C1: the request-validation step of the Call branch. The source's
`errors.As(validationErr, &validationErr)` tests the freshly declared
typed-nil pointer against itself, which always succeeds, so every error the
validator returns — here one that is not a JSON-schema validation error —
is wrapped in `FormatViolation` instead of propagating unchanged. -/
theorem route_wraps_nonvalidation_error_as_format_violation :
    errorsAsValidationError (.errorString "reading schema file: file does not exist") = false ∧
    (sampleRouter.Route failValidateEnv "cs001"
        ⟨.call, "Heartbeat", "m1", [], [], none⟩).result =
      some (.wrapf "validating Heartbeat request"
        (.mqttError .formatViolation (.errorString "reading schema file: file does not exist"))) ∧
    GoError.hasCode (.wrapf "validating Heartbeat request"
        (.mqttError .formatViolation (.errorString "reading schema file: file does not exist")))
      .formatViolation = true :=
  ⟨rfl, rfl, rfl⟩

/-- Claim C2: once the Call branch reaches the response-validation step, the
outcome of validating the response payload influences only the warning log
(a `PropertyConstraintViolation`-wrapped entry on failure): the CallResult
envelope is emitted, and the returned error depends only on the emitter,
exactly as for a valid response. -/
theorem route_emits_despite_response_violation {Req Resp St : Type}
    (r : Router Req Resp St) (env : RouterEnv St) (cs action mid : String)
    (reqP respP : Payload) (st : Option St)
    (route : CallRoute Req Resp) (req : Req) (resp : Resp) (responseJson : Payload)
    (hroute : r.callRoutes.lookup action = some route)
    (hval : env.validate reqP route.requestSchema = none)
    (hdec : route.decodeRequest reqP = .ok req)
    (hhandle : route.handleCall cs req = (some resp, none))
    (hmarshal : route.marshalResponse resp = .ok responseJson) :
    r.Route env cs ⟨.call, action, mid, reqP, respP, st⟩ =
      ⟨[⟨.callResult, action, mid, [], responseJson, none⟩],
       (match env.validate responseJson route.responseSchema with
         | some err => [GoError.mqttError .propertyConstraintViolation err]
         | none => []),
       (match env.emit cs ⟨.callResult, action, mid, [], responseJson, none⟩ with
         | some err => some (.wrapf "sending call response" err)
         | none => none)⟩ := by
  cases h1 : env.validate responseJson route.responseSchema <;>
    cases h2 : env.emit cs ⟨.callResult, action, mid, [], responseJson, none⟩ <;>
      simp [Router.Route, hroute, hval, hdec, hhandle, hmarshal, h1, h2]

/-- Claim C2 witness: the fixtures' Heartbeat route, with all oracles
succeeding. -/
theorem route_emits_despite_response_violation_witness :
    (sampleCallRoute.handleCall "cs001" 0 = (some 7, none)) ∧
    sampleRouter.Route okEnv "cs001" ⟨.call, "Heartbeat", "m1", [], [], none⟩ =
      ⟨[⟨.callResult, "Heartbeat", "m1", [], [123, 125], none⟩], [], none⟩ :=
  ⟨rfl, route_emits_despite_response_violation sampleRouter okEnv "cs001" "Heartbeat" "m1"
    [] [] none sampleCallRoute 0 7 [123, 125] rfl rfl rfl rfl rfl⟩

/-- Claim C5: the envelope handed to the emitter on a successful Call has
MessageType CallResult, the incoming MessageId and Action, and as
ResponsePayload the JSON serialization of the handler's response. -/
theorem route_call_result_envelope_fields {Req Resp St : Type}
    (r : Router Req Resp St) (env : RouterEnv St) (cs action mid : String)
    (reqP respP : Payload) (st : Option St)
    (route : CallRoute Req Resp) (req : Req) (resp : Resp) (responseJson : Payload)
    (hroute : r.callRoutes.lookup action = some route)
    (hval : env.validate reqP route.requestSchema = none)
    (hdec : route.decodeRequest reqP = .ok req)
    (hhandle : route.handleCall cs req = (some resp, none))
    (hmarshal : route.marshalResponse resp = .ok responseJson) :
    (r.Route env cs ⟨.call, action, mid, reqP, respP, st⟩).emitted =
      [⟨.callResult, action, mid, [], responseJson, none⟩] := by
  cases h1 : env.validate responseJson route.responseSchema <;>
    cases h2 : env.emit cs ⟨.callResult, action, mid, [], responseJson, none⟩ <;>
      simp [Router.Route, hroute, hval, hdec, hhandle, hmarshal, h1, h2]

/-- Claim C5 witness: the fixtures' Heartbeat route; the emitted envelope
carries the marshalled response bytes. -/
theorem route_call_result_envelope_fields_witness :
    (sampleCallRoute.marshalResponse 7 = .ok [123, 125]) ∧
    (sampleRouter.Route okEnv "cs001" ⟨.call, "Heartbeat", "m1", [], [], none⟩).emitted =
      [⟨.callResult, "Heartbeat", "m1", [], [123, 125], none⟩] :=
  ⟨rfl, route_call_result_envelope_fields sampleRouter okEnv "cs001" "Heartbeat" "m1"
    [] [] none sampleCallRoute 0 7 [123, 125] rfl rfl rfl rfl rfl⟩

/-- Claim C6 counterexample: a handler returning nil response and nil error
makes `Route` return the plain `fmt.Errorf` error
`no response or error for <Action>`; that error carries no `InternalError`
OCPP code, contradicting the claim that `Route` surfaces this case as an
error carrying the `InternalError` code. -/
theorem route_nil_response_no_internal_error_code :
    (nilRespRouter.Route okEnv "cs001" ⟨.call, "Heartbeat", "m1", [], [], none⟩).result =
      some (.errorString "no response or error for Heartbeat") ∧
    GoError.hasCode (.errorString "no response or error for Heartbeat") .internalError = false ∧
    (nilRespRouter.Route okEnv "cs001" ⟨.call, "Heartbeat", "m1", [], [], none⟩).emitted = [] :=
  ⟨rfl, rfl, rfl⟩

/-- Claim C6 (amended): a nil response with nil error makes `Route` emit
nothing and return the non-nil plain error
`no response or error for <Action>`, which carries no OCPP error code at
all (classification to `InternalError` is left to the caller). -/
theorem route_nil_response_plain_error {Req Resp St : Type}
    (r : Router Req Resp St) (env : RouterEnv St) (cs action mid : String)
    (reqP respP : Payload) (st : Option St)
    (route : CallRoute Req Resp) (req : Req)
    (hroute : r.callRoutes.lookup action = some route)
    (hval : env.validate reqP route.requestSchema = none)
    (hdec : route.decodeRequest reqP = .ok req)
    (hhandle : route.handleCall cs req = (none, none)) :
    r.Route env cs ⟨.call, action, mid, reqP, respP, st⟩ =
      ⟨[], [], some (.errorString ("no response or error for " ++ action))⟩ ∧
    ∀ c, GoError.hasCode (.errorString ("no response or error for " ++ action)) c = false := by
  refine ⟨?_, fun c => rfl⟩
  simp [Router.Route, hroute, hval, hdec, hhandle]

/-- Claim C6 (amended) witness: the nil-response fixture route. -/
theorem route_nil_response_plain_error_witness :
    (nilRespRoute.handleCall "cs001" 0 = (none, none)) ∧
    nilRespRouter.Route okEnv "cs001" ⟨.call, "Heartbeat", "m1", [], [], none⟩ =
      ⟨[], [], some (.errorString ("no response or error for " ++ "Heartbeat"))⟩ :=
  ⟨rfl, (route_nil_response_plain_error nilRespRouter okEnv "cs001" "Heartbeat" "m1"
    [] [] none nilRespRoute 0 rfl rfl rfl rfl).1⟩

/-- Claim C7 counterexample: a request-decode failure makes `Route` return
the unmarshal error wrapped only with a message; the result carries no
`FormatViolation` code, contradicting the claim that decode failures are
classified as `FormatViolation`. -/
theorem route_decode_failure_not_format_violation :
    (badDecodeRouter.Route okEnv "cs001" ⟨.call, "Heartbeat", "m1", [], [], none⟩).result =
      some (.wrapf "unmarshalling Heartbeat request payload" (.errorString "invalid character")) ∧
    GoError.hasCode (.wrapf "unmarshalling Heartbeat request payload"
        (.errorString "invalid character")) .formatViolation = false :=
  ⟨rfl, rfl⟩

/-- Claim C7 (amended): a request-decode failure makes `Route` emit nothing
and return the raw `json.Unmarshal` error wrapped (via `%w`) with the
message `unmarshalling <Action> request payload`; the wrap attaches no OCPP
error code, so the result is classified `FormatViolation` only if the
decode error itself already was. -/
theorem route_decode_failure_unclassified {Req Resp St : Type}
    (r : Router Req Resp St) (env : RouterEnv St) (cs action mid : String)
    (reqP respP : Payload) (st : Option St)
    (route : CallRoute Req Resp) (e : GoError)
    (hroute : r.callRoutes.lookup action = some route)
    (hval : env.validate reqP route.requestSchema = none)
    (hdec : route.decodeRequest reqP = .error e) :
    r.Route env cs ⟨.call, action, mid, reqP, respP, st⟩ =
      ⟨[], [], some (.wrapf ("unmarshalling " ++ action ++ " request payload") e)⟩ ∧
    ∀ c, GoError.hasCode (.wrapf ("unmarshalling " ++ action ++ " request payload") e) c =
      GoError.hasCode e c := by
  refine ⟨?_, fun c => rfl⟩
  simp [Router.Route, hroute, hval, hdec]

/-- Claim C7 (amended) witness: the bad-decode fixture route. -/
theorem route_decode_failure_unclassified_witness :
    (badDecodeRoute.decodeRequest [] = .error (.errorString "invalid character")) ∧
    badDecodeRouter.Route okEnv "cs001" ⟨.call, "Heartbeat", "m1", [], [], none⟩ =
      ⟨[], [], some (.wrapf ("unmarshalling " ++ "Heartbeat" ++ " request payload")
        (.errorString "invalid character"))⟩ :=
  ⟨rfl, (route_decode_failure_unclassified badDecodeRouter okEnv "cs001" "Heartbeat" "m1"
    [] [] none badDecodeRoute (.errorString "invalid character") rfl rfl rfl).1⟩

/-- Claim C8: a CallResult envelope that passes lookup, both validations
and both decodes reaches the result handler with exactly the `State` value
carried in the envelope, and `Route` returns exactly the handler's result,
emitting nothing. -/
theorem route_callresult_passes_state_verbatim {Req Resp St : Type}
    (r : Router Req Resp St) (env : RouterEnv St) (cs action mid : String)
    (reqP respP : Payload) (st : Option St)
    (route : CallResultRoute Req Resp St) (req : Req) (resp : Resp)
    (hroute : r.callResultRoutes.lookup action = some route)
    (hv1 : env.validate reqP route.requestSchema = none)
    (hv2 : env.validate respP route.responseSchema = none)
    (hd1 : route.decodeRequest reqP = .ok req)
    (hd2 : route.decodeResponse respP = .ok resp) :
    r.Route env cs ⟨.callResult, action, mid, reqP, respP, st⟩ =
      ⟨[], [], route.handleCallResult cs req resp st⟩ := by
  simp [Router.Route, hroute, hv1, hv2, hd1, hd2]

/-- Claim C8 witness: the fixtures' CertificateSigned result route with a
concrete state blob. -/
theorem route_callresult_passes_state_verbatim_witness :
    (sampleRouter.callResultRoutes.lookup "CertificateSigned" = some sampleResultRoute) ∧
    sampleRouter.Route okEnv "cs001" ⟨.callResult, "CertificateSigned", "m1", [], [], some 42⟩ =
      ⟨[], [], sampleResultRoute.handleCallResult "cs001" 1 2 (some 42)⟩ :=
  ⟨rfl, route_callresult_passes_state_verbatim sampleRouter okEnv "cs001" "CertificateSigned"
    "m1" [] [] (some 42) sampleResultRoute 1 2 rfl rfl rfl rfl rfl⟩

end Maeve
